import Mathlib

/-!
Verification of the Darwin-Core normalization and export engine of
`app_plantnet` (`src/backend/dwc_normalize_to_csv.py`), shallowly embedded
in Lean 4.  Decoded JSON values are modelled by `JVal`; Python `dict`s
coming from JSON are association lists with string keys; Python's `None`
and JSON `null` are both `JVal.null` (they are indistinguishable in the
program).  Fallible Python code is modelled with `Except`/`Option`.
-/

/-- A decoded JSON value, as produced by Python's `json.load`.
`int` and `float` are kept separate because Python's `str()` renders them
differently (e.g. `"5"` vs `"5.0"`). -/
inductive JVal where
  | str (s : String)
  | int (n : Int)
  | float (q : ℚ)
  | bool (b : Bool)
  | null
  | arr (l : List JVal)
  | obj (o : List (String × JVal))

/-- Python truthiness of a JSON value (`bool(v)`): empty string, zero,
`False`, `None` and empty containers are falsy. -/
def truthy : JVal → Bool
  | .str s => !(s == "")
  | .int n => !(n == 0)
  | .float q => decide (q ≠ 0)
  | .bool b => b
  | .null => false
  | .arr l => !l.isEmpty
  | .obj o => !o.isEmpty

/-- Python's short-circuiting `a or b`: `a` if truthy, else `b`. -/
def pyOr (a b : JVal) : JVal := if truthy a then a else b

/-- `d.get(k)` on a Python dict decoded from JSON: `None` when absent. -/
def dget (d : List (String × JVal)) (k : String) : JVal :=
  (d.lookup k).getD .null

/-- Strip trailing `'0'` characters from a digit string. -/
def stripTrailingZeros (s : String) : String :=
  String.mk (s.toList.reverse.dropWhile (fun c => c == '0')).reverse

/-- Left-pad a string with `'0'` up to width `w`. -/
def padZeros (w : Nat) (s : String) : String :=
  String.mk (List.replicate (w - s.length) '0') ++ s

/-- The whitespace characters removed by Python's `str.strip()`. -/
def pySpace (c : Char) : Bool :=
  c = ' ' ∨ c = '\t' ∨ c = '\n' ∨ c = '\r' ∨ c = '\x0b' ∨ c = '\x0c'

/-- Python's `str.strip()`. -/
def pyStrip (s : String) : String :=
  String.mk ((s.toList.dropWhile pySpace).reverse.dropWhile pySpace).reverse

/-- Python's `str.lower()` (ASCII case mapping; all vocabulary the
program lowercases/uppercases is ASCII). -/
def pyLowerChar (c : Char) : Char :=
  if 'A' ≤ c ∧ c ≤ 'Z' then Char.ofNat (c.toNat + 32) else c

def pyLower (s : String) : String := String.mk (s.toList.map pyLowerChar)

/-- Python's `str.upper()` (ASCII case mapping). -/
def pyUpperChar (c : Char) : Char :=
  if 'a' ≤ c ∧ c ≤ 'z' then Char.ofNat (c.toNat - 32) else c

def pyUpper (s : String) : String := String.mk (s.toList.map pyUpperChar)

/-- Leading-pattern match: consume `pat` off the front, give back the
rest. -/
def matchPat : List Char → List Char → Option (List Char)
  | [], rest => some rest
  | _ :: _, [] => none
  | p :: ps, c :: cs => if c = p then matchPat ps cs else none

/-- Fuelled left-to-right non-overlapping replacement driver. -/
def replaceFuel (pat rep : List Char) : Nat → List Char → List Char
  | 0, l => l
  | _ + 1, [] => []
  | fuel + 1, c :: cs =>
    match matchPat pat (c :: cs) with
    | some rest => rep ++ replaceFuel pat rep fuel rest
    | none => c :: replaceFuel pat rep fuel cs

/-- Python's `str.replace(pat, rep)` for a non-empty pattern: every
non-overlapping occurrence, scanning left to right. -/
def pyReplaceStr (s pat rep : String) : String :=
  String.mk (replaceFuel pat.toList rep.toList s.toList.length s.toList)

/-- Python's `str()` of a float, for floats whose value is an exact decimal
fraction (the only floats the program's `to_float` can produce from decimal
text): sign, integer part, `'.'`, fractional digits with trailing zeros
stripped but at least one digit (`5.0`, `-20.9`).  Scientific-notation
thresholds and IEEE rounding of non-decimal rationals are not modelled. -/
def pyFloatStr (q : ℚ) : String :=
  let sign := if q < 0 then "-" else ""
  let n := q.num.natAbs
  let d := q.den
  match (List.range 400).find? (fun k => decide (d ∣ 10 ^ k)) with
  | some k =>
    let m := n * 10 ^ k / d
    let ip := m / 10 ^ k
    let frac := stripTrailingZeros (padZeros k (toString (m % 10 ^ k)))
    sign ++ toString ip ++ "." ++ (if frac = "" then "0" else frac)
  | none => sign ++ toString n ++ "/" ++ toString d

mutual
/-- Python's `repr()` of a JSON-decoded value (used by `str()` for the
elements of lists and dicts): strings get single quotes. -/
def pyRepr : JVal → String
  | .str s => "'" ++ s ++ "'"
  | .int n => toString n
  | .float q => pyFloatStr q
  | .bool b => if b then "True" else "False"
  | .null => "None"
  | .arr l => "[" ++ String.intercalate ", " (pyReprList l) ++ "]"
  | .obj o => "\x7b" ++ String.intercalate ", " (pyReprPairs o) ++ "\x7d"

def pyReprList : List JVal → List String
  | [] => []
  | v :: vs => pyRepr v :: pyReprList vs

def pyReprPairs : List (String × JVal) → List String
  | [] => []
  | (k, v) :: ps => ("'" ++ k ++ "': " ++ pyRepr v) :: pyReprPairs ps
end

/-- Python's `str()` of a JSON-decoded value. -/
def pyStr : JVal → String
  | .str s => s
  | v => pyRepr v

/-! ### Python numeric parsing (`int(s)` and `float(s)`) -/

/-- Greedily consume `[digit | '_' digit]*` (Python allows single
underscores between digits in numeric literals); returns the digits
collected and the unconsumed rest. -/
def digitsUAux : List Char → List Char × List Char
  | [] => ([], [])
  | c :: rest =>
    if c.isDigit then
      let p := digitsUAux rest
      (c :: p.1, p.2)
    else if c = '_' then
      match rest with
      | c2 :: rest2 =>
        if c2.isDigit then
          let p := digitsUAux rest2
          (c2 :: p.1, p.2)
        else ([], c :: rest)
      | [] => ([], [c])
    else ([], c :: rest)

/-- A run of digits (with embedded underscores) that must start with a
digit; `none` if the input does not start with a digit. -/
def parseDigitsU (cs : List Char) : Option (List Char × List Char) :=
  match cs with
  | c :: rest =>
    if c.isDigit then
      let p := digitsUAux rest
      some (c :: p.1, p.2)
    else none
  | [] => none

/-- Numeric value of a digit string. -/
def digitsVal (ds : List Char) : Nat :=
  ds.foldl (fun a c => a * 10 + (c.toNat - 48)) 0

/-- Python's `int(s)` on a string: optional surrounding whitespace,
optional sign, then digits (underscores allowed between digits). -/
def pyIntOfString (s : String) : Option Int :=
  let cs := (pyStrip s).toList
  let sc : Int × List Char :=
    match cs with
    | '+' :: r => (1, r)
    | '-' :: r => (-1, r)
    | _ => (1, cs)
  match parseDigitsU sc.2 with
  | some (ds, rest) => if rest = [] then some (sc.1 * digitsVal ds) else none
  | none => none

/-- The exact rational `m * 10^e` (`m` the digits' value, `e` the net
decimal exponent). -/
def decimalRat (m : Nat) (e : Int) : ℚ :=
  if 0 ≤ e then mkRat (m * 10 ^ e.natAbs) 1 else mkRat m (10 ^ e.natAbs)

/-- Mantissa and optional exponent tail of a Python float literal.
`ip`/`fp` are the integer/fraction digit runs already consumed. -/
def finishExp (ip fp : List Char) (rest : List Char) : Option ℚ :=
  let m := digitsVal (ip ++ fp)
  match rest with
  | [] => some (decimalRat m (-(fp.length : Int)))
  | c :: r2 =>
    if c = 'e' ∨ c = 'E' then
      let sc : Int × List Char :=
        match r2 with
        | '+' :: rr => (1, rr)
        | '-' :: rr => (-1, rr)
        | _ => (1, r2)
      match parseDigitsU sc.2 with
      | some (eds, r4) =>
        if r4 = [] then
          some (decimalRat m (sc.1 * (digitsVal eds : Int) - (fp.length : Int)))
        else none
      | none => none
    else none

/-- Body of a Python float literal after the sign: `digits [. [digits]]`
or `. digits`, then an optional exponent. -/
def parseFloatBody (cs : List Char) : Option ℚ :=
  match cs with
  | [] => none
  | c :: rest =>
    if c.isDigit then
      match parseDigitsU cs with
      | some (ip, r1) =>
        match r1 with
        | '.' :: r2 =>
          (match r2 with
           | c2 :: _ =>
             if c2.isDigit then
               match parseDigitsU r2 with
               | some (fp, r3) => finishExp ip fp r3
               | none => none
             else finishExp ip [] r2
           | [] => finishExp ip [] [])
        | _ => finishExp ip [] r1
      | none => none
    else if c = '.' then
      match parseDigitsU rest with
      | some (fp, r3) => finishExp [] fp r3
      | none => none
    else none

/-- Python's `float(s)` on a string (decimal forms; the special texts
`inf`/`nan`, which are not rational values, are not modelled). -/
def parseFloat (s : String) : Option ℚ :=
  let cs := (pyStrip s).toList
  match cs with
  | '+' :: r => parseFloatBody r
  | '-' :: r => (parseFloatBody r).map (fun q => -q)
  | _ => parseFloatBody cs

/-! ### Field normalizers from `dwc_normalize_to_csv.py` -/

/-- `to_float` (lines 163-181): `float(str(v).strip())`, `None` on any
failure. -/
def to_float (v : JVal) : Option ℚ :=
  parseFloat (pyStrip (pyStr v))

/-- `normalize_country_code` (lines 184-199):
`str(v).strip().upper() if v else None`. -/
def normalize_country_code (v : JVal) : Option String :=
  if truthy v then some (pyUpper (pyStrip (pyStr v))) else none

/-- `ensure_wgs84` (lines 202-224). -/
def ensure_wgs84 (datum : JVal) : String :=
  if truthy datum then
    let s := pyUpper (pyStrip (pyStr datum))
    if s = "WGS84" ∨ s = "EPSG:4326" then "WGS84" else pyStr datum
  else "WGS84"

/-! ### `to_iso_date` (lines 121-160): a model of `datetime.strptime`
for the six format strings tried by the source, `datetime.isoformat`,
and the final `'+00:00' -> 'Z'` replacement. -/

/-- Parsed datetime state: calendar fields, microseconds and an optional
UTC offset in seconds (`none` = naive). -/
structure PyDT where
  y : Nat
  mo : Nat
  d : Nat
  h : Nat
  mi : Nat
  s : Nat
  us : Nat
  offSec : Option Int

/-- Two leading decimal digits. -/
def two? (cs : List Char) : Option (Nat × List Char) :=
  match cs with
  | a :: b :: r =>
    if a.isDigit ∧ b.isDigit then some ((a.toNat - 48) * 10 + (b.toNat - 48), r)
    else none
  | _ => none

/-- One leading decimal digit within `lo..hi`. -/
def oneRange (lo hi : Nat) (cs : List Char) : Option (Nat × List Char) :=
  match cs with
  | c :: r =>
    if c.isDigit ∧ lo ≤ c.toNat - 48 ∧ c.toNat - 48 ≤ hi then some (c.toNat - 48, r)
    else none
  | [] => none

/-- `%Y`: exactly four digits (CPython's `strptime` regex). -/
def parseYear4 (cs : List Char) : Option (Nat × List Char) :=
  match cs with
  | a :: b :: c :: d :: r =>
    if a.isDigit ∧ b.isDigit ∧ c.isDigit ∧ d.isDigit then
      some (digitsVal [a, b, c, d], r)
    else none
  | _ => none

/-- A two-digit field value in `lo2..hi2`, else a one-digit field in
`lo1..hi1` (the alternation order of CPython's directive regexes). -/
def twoThenOne (lo2 hi2 lo1 hi1 : Nat) (cs : List Char) : Option (Nat × List Char) :=
  match two? cs with
  | some (v, r) => if lo2 ≤ v ∧ v ≤ hi2 then some (v, r) else oneRange lo1 hi1 cs
  | none => oneRange lo1 hi1 cs

/-- `%m`: `1[0-2]|0[1-9]|[1-9]`. -/
def parseMonth : List Char → Option (Nat × List Char) := twoThenOne 1 12 1 9
/-- `%d`: `3[01]|[12]\d|0[1-9]|[1-9]`. -/
def parseDayD : List Char → Option (Nat × List Char) := twoThenOne 1 31 1 9
/-- `%H`: `2[0-3]|[0-1]\d|\d`. -/
def parseHour : List Char → Option (Nat × List Char) := twoThenOne 0 23 0 9
/-- `%M`: `[0-5]\d|\d`. -/
def parseMinute : List Char → Option (Nat × List Char) := twoThenOne 0 59 0 9
/-- `%S`: `6[0-1]|[0-5]\d|\d` (60/61 are rejected later when the
`datetime` is constructed, like CPython). -/
def parseSecond : List Char → Option (Nat × List Char) := twoThenOne 0 61 0 9

/-- A single literal character of the format string. -/
def parseLit (c : Char) (cs : List Char) : Option (List Char) :=
  match cs with
  | c2 :: r => if c2 = c then some r else none
  | [] => none

/-- All leading digits. -/
def takeDigits (cs : List Char) : List Char × List Char :=
  match cs with
  | c :: r =>
    if c.isDigit then
      let p := takeDigits r
      (c :: p.1, p.2)
    else ([], cs)
  | [] => ([], [])

/-- `%f`: one to six digits, right-padded to microseconds.  A seventh
digit makes the whole format fail (every backtrack leaves a digit where
the following non-digit token is expected). -/
def parseMicro (cs : List Char) : Option (Nat × List Char) :=
  let p := takeDigits cs
  if p.1.length = 0 ∨ 6 < p.1.length then none
  else some (digitsVal p.1 * 10 ^ (6 - p.1.length), p.2)

/-- The optional seconds part of a `%z` offset: `(:?\d\d(\.\d{1,6})?)?`.
Returns the seconds value (0 when absent) and the rest, or `none` when a
partial match leaves text that makes the enclosing format fail. -/
def parseTZSeconds (cs : List Char) : Option (Nat × List Char) :=
  let core : List Char → Option (Nat × List Char) := fun l =>
    match two? l with
    | some (ss, r2) =>
      match r2 with
      | '.' :: r3 =>
        let p := takeDigits r3
        if 1 ≤ p.1.length ∧ p.1.length ≤ 6 then some (ss, p.2) else none
      | _ => some (ss, r2)
    | none => none
  match cs with
  | ':' :: r =>
    match core r with
    | some res => some res
    | none => none
  | _ =>
    match core cs with
    | some res => some res
    | none => some (0, cs)

/-- `%z`: `Z` or `[+-]\d\d:?\d\d(:?\d\d(\.\d{1,6})?)?`; sub-second offset
digits are parsed but truncated.  The `< 24h` bound of
`datetime.timezone` is enforced at construction time. -/
def parseTZ (cs : List Char) : Option (Int × List Char) :=
  match cs with
  | 'Z' :: r => some (0, r)
  | c :: r =>
    if c = '+' ∨ c = '-' then
      let sgn : Int := if c = '+' then 1 else -1
      match two? r with
      | some (hh, r2) =>
        let afterColon := match r2 with
          | ':' :: rr => rr
          | _ => r2
        match two? afterColon with
        | some (mm, r3) =>
          match parseTZSeconds r3 with
          | some (ss, r4) => some (sgn * (hh * 3600 + mm * 60 + ss), r4)
          | none => none
        | none => none
      | none => none
    else none
  | [] => none

/-- `datetime(...)` construction checks shared by all formats: year within
`MINYEAR..MAXYEAR`, day valid for the month, seconds below 60 and any UTC
offset strictly below 24 hours. -/
def leapYear (y : Nat) : Bool := (y % 4 = 0 ∧ y % 100 ≠ 0) ∨ y % 400 = 0

def daysInMonth (y mo : Nat) : Nat :=
  if mo = 2 then (if leapYear y then 29 else 28)
  else if mo = 4 ∨ mo = 6 ∨ mo = 9 ∨ mo = 11 then 30
  else 31

def datetimeOK (dt : PyDT) : Bool :=
  decide (1 ≤ dt.y) && decide (dt.d ≤ daysInMonth dt.y dt.mo) &&
  decide (dt.s ≤ 59) &&
    (match dt.offSec with
     | some o => decide (o.natAbs < 86400)
     | none => true)

/-- `strptime` with `"%Y-%m-%d"` or `"%Y/%m/%d"`. -/
def parseDateFmt (sep : Char) (cs : List Char) : Option PyDT := do
  let (y, r1) ← parseYear4 cs
  let r2 ← parseLit sep r1
  let (mo, r3) ← parseMonth r2
  let r4 ← parseLit sep r3
  let (d, r5) ← parseDayD r4
  if r5 = [] then
    let dt : PyDT := ⟨y, mo, d, 0, 0, 0, 0, none⟩
    if datetimeOK dt then some dt else none
  else none

/-- `strptime` with `"%Y-%m-%dT%H:%M:%S"` plus optional `.%f` and
optional `%z`. -/
def parseDTFmt (withFrac withTZ : Bool) (cs : List Char) : Option PyDT := do
  let (y, r1) ← parseYear4 cs
  let r2 ← parseLit '-' r1
  let (mo, r3) ← parseMonth r2
  let r4 ← parseLit '-' r3
  let (d, r5) ← parseDayD r4
  let r6 ← parseLit 'T' r5
  let (h, r7) ← parseHour r6
  let r8 ← parseLit ':' r7
  let (mi, r9) ← parseMinute r8
  let r10 ← parseLit ':' r9
  let (s, r11) ← parseSecond r10
  let (us, r12) ←
    if withFrac then do
      let r ← parseLit '.' r11
      parseMicro r
    else some (0, r11)
  let (off, r13) ←
    if withTZ then (parseTZ r12).map (fun p => (some p.1, p.2))
    else some (none, r12)
  if r13 = [] then
    let dt : PyDT := ⟨y, mo, d, h, mi, s, us, off⟩
    if datetimeOK dt then some dt else none
  else none

/-- The source's fixed list of formats, tried in order (lines 143-147):
`%Y-%m-%d`, `%Y/%m/%d`, `%Y-%m-%dT%H:%M:%S%z`, `%Y-%m-%dT%H:%M:%S.%f%z`,
`%Y-%m-%dT%H:%M:%S`, `%Y-%m-%dT%H:%M:%S.%f`. -/
def strptimeList (cs : List Char) : Option PyDT :=
  (parseDateFmt '-' cs) <|> (parseDateFmt '/' cs) <|>
  (parseDTFmt false true cs) <|> (parseDTFmt true true cs) <|>
  (parseDTFmt false false cs) <|> (parseDTFmt true false cs)

/-- `datetime.isoformat()`:
`YYYY-MM-DDTHH:MM:SS[.ffffff][±HH:MM[:SS]]`. -/
def pyIsoformat (dt : PyDT) : String :=
  let base :=
    padZeros 4 (toString dt.y) ++ "-" ++ padZeros 2 (toString dt.mo) ++ "-" ++
    padZeros 2 (toString dt.d) ++ "T" ++ padZeros 2 (toString dt.h) ++ ":" ++
    padZeros 2 (toString dt.mi) ++ ":" ++ padZeros 2 (toString dt.s) ++
    (if dt.us ≠ 0 then "." ++ padZeros 6 (toString dt.us) else "")
  match dt.offSec with
  | none => base
  | some o =>
    let a := o.natAbs
    base ++ (if o < 0 then "-" else "+") ++ padZeros 2 (toString (a / 3600)) ++
      ":" ++ padZeros 2 (toString (a % 3600 / 60)) ++
      (if a % 60 ≠ 0 then ":" ++ padZeros 2 (toString (a % 60)) else "")

/-- `to_iso_date` (lines 121-160).  Falsy input yields `None`; a parsed
naive datetime is forced to UTC (`tzinfo=timezone.utc`); the rendered ISO
text has `+00:00` replaced by `Z`; if no format matches, a 10-character
string with hyphens at positions 4 and 7 is returned verbatim. -/
def to_iso_date (value : JVal) : Option String :=
  if truthy value then
    let s := pyStrip (pyStr value)
    match strptimeList s.toList with
    | some dt =>
      let dtU : PyDT := ⟨dt.y, dt.mo, dt.d, dt.h, dt.mi, dt.s, dt.us,
        some (dt.offSec.getD 0)⟩
      some (pyReplaceStr (pyIsoformat dtU) "+00:00" "Z")
    | none =>
      let cs := s.toList
      if cs.length = 10 ∧ cs.getD 4 ' ' = '-' ∧ cs.getD 7 ' ' = '-' then some s
      else none
  else none

/-! ### `uuid.uuid5` (RFC 4122 name-based UUID over SHA-1), used by
`build_occurrence_id`.  Implemented from the standard: SHA-1 of the
namespace bytes followed by the UTF-8 of the name, first 16 bytes, with
the version and variant bits set. -/

/-- UTF-8 encoding of one character. -/
def utf8Char (c : Char) : List Nat :=
  let n := c.toNat
  if n < 128 then [n]
  else if n < 2048 then [192 + n / 64, 128 + n % 64]
  else if n < 65536 then [224 + n / 4096, 128 + n / 64 % 64, 128 + n % 64]
  else [240 + n / 262144, 128 + n / 4096 % 64, 128 + n / 64 % 64, 128 + n % 64]

/-- UTF-8 encoding of a string as a byte list. -/
def utf8Encode (s : String) : List Nat :=
  (s.toList.map utf8Char).flatten

/-- Left-rotation of a 32-bit word held in a `Nat`. -/
def rotl32 (n x : Nat) : Nat :=
  (x * 2 ^ n) % 4294967296 + x / 2 ^ (32 - n)

/-- SHA-1 message padding: `0x80`, zeros to 56 mod 64, then the bit
length as eight big-endian bytes. -/
def sha1Pad (msg : List Nat) : List Nat :=
  let bl := msg.length * 8
  msg ++ [128] ++ List.replicate ((119 - msg.length % 64) % 64) 0 ++
    [bl / 2 ^ 56 % 256, bl / 2 ^ 48 % 256, bl / 2 ^ 40 % 256, bl / 2 ^ 32 % 256,
     bl / 2 ^ 24 % 256, bl / 2 ^ 16 % 256, bl / 2 ^ 8 % 256, bl % 256]

/-- Group bytes into big-endian 32-bit words. -/
def bytesToWords : List Nat → List Nat
  | b0 :: b1 :: b2 :: b3 :: rest =>
    (b0 * 16777216 + b1 * 65536 + b2 * 256 + b3) :: bytesToWords rest
  | _ => []

/-- Split a word list into 16-word blocks (the padded input is always a
multiple of 16 words; a ragged tail is kept as a last short block). -/
def toBlocks : List Nat → List (List Nat)
  | [] => []
  | w0 :: w1 :: w2 :: w3 :: w4 :: w5 :: w6 :: w7 ::
    w8 :: w9 :: w10 :: w11 :: w12 :: w13 :: w14 :: w15 :: rest =>
    [w0, w1, w2, w3, w4, w5, w6, w7, w8, w9, w10, w11, w12, w13, w14, w15] ::
      toBlocks rest
  | l => [l]

/-- Extend a 16-word block to the 80-word SHA-1 schedule. -/
def sha1Schedule (block : List Nat) : List Nat :=
  (List.range 80).foldl
    (fun acc i =>
      if i < 16 then acc ++ [block.getD i 0]
      else acc ++ [rotl32 1 (((acc.getD (i - 3) 0 ^^^ acc.getD (i - 8) 0) ^^^
        acc.getD (i - 14) 0) ^^^ acc.getD (i - 16) 0)])
    []

/-- One SHA-1 compression round. -/
def sha1Round (w : List Nat) (st : Nat × Nat × Nat × Nat × Nat) (i : Nat) :
    Nat × Nat × Nat × Nat × Nat :=
  let (a, b, c, d, e) := st
  let f :=
    if i < 20 then (b &&& c) ||| ((4294967295 - b) &&& d)
    else if i < 40 then (b ^^^ c) ^^^ d
    else if i < 60 then ((b &&& c) ||| (b &&& d)) ||| (c &&& d)
    else (b ^^^ c) ^^^ d
  let k :=
    if i < 20 then 1518500249
    else if i < 40 then 1859775393
    else if i < 60 then 2400959708
    else 3395469782
  let temp := (rotl32 5 a + f + e + k + w.getD i 0) % 4294967296
  (temp, a, rotl32 30 b, c, d)

/-- SHA-1 compression of one block onto the running hash state. -/
def sha1Block (h : Nat × Nat × Nat × Nat × Nat) (block : List Nat) :
    Nat × Nat × Nat × Nat × Nat :=
  let w := sha1Schedule block
  let (a, b, c, d, e) := (List.range 80).foldl (sha1Round w) h
  ((h.1 + a) % 4294967296, (h.2.1 + b) % 4294967296, (h.2.2.1 + c) % 4294967296,
   (h.2.2.2.1 + d) % 4294967296, (h.2.2.2.2 + e) % 4294967296)

/-- Big-endian bytes of a 32-bit word. -/
def wordBytes (x : Nat) : List Nat :=
  [x / 16777216 % 256, x / 65536 % 256, x / 256 % 256, x % 256]

/-- SHA-1 digest (20 bytes) of a byte list. -/
def sha1 (msg : List Nat) : List Nat :=
  let h := (toBlocks (bytesToWords (sha1Pad msg))).foldl sha1Block
    (1732584193, 4023233417, 2562383102, 271733878, 3285377520)
  wordBytes h.1 ++ wordBytes h.2.1 ++ wordBytes h.2.2.1 ++ wordBytes h.2.2.2.1 ++
    wordBytes h.2.2.2.2

/-- Lowercase hex of one byte. -/
def byteHex (n : Nat) : String :=
  let dig := fun d => String.singleton ("0123456789abcdef".toList.getD d 'x')
  dig (n / 16 % 16) ++ dig (n % 16)

/-- Canonical 8-4-4-4-12 rendering of 16 UUID bytes. -/
def uuidFormat (bs : List Nat) : String :=
  let hex := fun (l : List Nat) => String.join (l.map byteHex)
  hex (bs.take 4) ++ "-" ++ hex ((bs.drop 4).take 2) ++ "-" ++
    hex ((bs.drop 6).take 2) ++ "-" ++ hex ((bs.drop 8).take 2) ++ "-" ++
    hex (bs.drop 10)

/-- `uuid.NAMESPACE_URL`: `6ba7b811-9dad-11d1-80b4-00c04fd430c8`. -/
def NAMESPACE_URL : List Nat :=
  [107, 167, 184, 17, 157, 173, 17, 209, 128, 180, 0, 192, 79, 212, 48, 200]

/-- `uuid.NAMESPACE_DNS`: `6ba7b810-9dad-11d1-80b4-00c04fd430c8`
(kept for the test vector below). -/
def NAMESPACE_DNS : List Nat :=
  [107, 167, 184, 16, 157, 173, 17, 209, 128, 180, 0, 192, 79, 212, 48, 200]

/-- `str(uuid.uuid5(namespace, name))`. -/
def uuid5 (ns : List Nat) (name : String) : String :=
  let d := (sha1 (ns ++ utf8Encode name)).take 16
  let d := d.set 6 (d.getD 6 0 % 16 + 80)
  let d := d.set 8 (d.getD 8 0 % 64 + 128)
  uuidFormat d

/-! ### Identity generator and record normalizer -/

/-- Python's `{**a, **b}`: `a`'s entries in order with `b`'s values
overriding, then `b`'s new keys. -/
def pyMerge (a b : List (String × JVal)) : List (String × JVal) :=
  a.map (fun p => (p.1, (b.lookup p.1).getD p.2)) ++
    b.filter (fun p => (a.lookup p.1).isNone)

/-- One component of the `build_occurrence_id` seed:
`f"{rec.get(k, dflt)}"`, i.e. `str` of the stored value when the key is
present (even when it is `None`), the default text otherwise. -/
def seedPart (rec : List (String × JVal)) (k dflt : String) : String :=
  match rec.lookup k with
  | some v => pyStr v
  | none => dflt

/-- `build_occurrence_id` (lines 227-252): reuse a truthy `occurrenceID`
or `id` via `str()`, else a deterministic UUID5 over the seed
`scientificName|eventDate|decimalLatitude|decimalLongitude|datasetName`. -/
def build_occurrence_id (rec : List (String × JVal)) : String :=
  let existing := pyOr (dget rec "occurrenceID") (dget rec "id")
  if truthy existing then pyStr existing
  else
    uuid5 NAMESPACE_URL
      (seedPart rec "scientificName" "" ++ "|" ++ seedPart rec "eventDate" "" ++
       "|" ++ seedPart rec "decimalLatitude" "" ++ "|" ++
       seedPart rec "decimalLongitude" "" ++ "|" ++
       seedPart rec "datasetName" "plantnet")

/-- `Optional[str]` result lifted back into a Python value. -/
def optStr : Option String → JVal
  | some s => .str s
  | none => .null

/-- `Optional[float]` result lifted back into a Python value. -/
def optFloat : Option ℚ → JVal
  | some q => .float q
  | none => .null

/-- The taxonomic hierarchy keys copied verbatim (line 289). -/
def hierarchyFields : List String :=
  ["kingdom", "phylum", "class", "order", "family", "genus",
   "specificEpithet", "infraspecificEpithet"]

/-- The `year`/`month`/`day` entries derived from a normalized event date
(lines 306-312): only when the date is truthy, at least 10 characters
long, and all three fixed-offset slices parse as `int` (the tuple
assignment is all-or-nothing; failures are swallowed). -/
def ymdFields (iso : Option String) : List (String × JVal) :=
  match iso with
  | some isoS =>
    if isoS ≠ "" ∧ 10 ≤ isoS.length then
      let slice := fun (a b : Nat) => String.mk ((isoS.toList.drop a).take (b - a))
      match pyIntOfString (slice 0 4), pyIntOfString (slice 5 7),
          pyIntOfString (slice 8 10) with
      | some y, some mo, some d =>
        [("year", .int y), ("month", .int mo), ("day", .int d)]
      | _, _, _ => []
    else []
  | none => []

/-- The normalized event date of a record (line 304):
`to_iso_date(rec.get("eventDate") or rec.get("date") or
rec.get("observationDate"))`. -/
def isoOf (rec : List (String × JVal)) : Option String :=
  to_iso_date (pyOr (pyOr (dget rec "eventDate") (dget rec "date"))
    (dget rec "observationDate"))

/-- The `out` dict of `normalize_record_gbif` (lines 283-337) just before
`occurrenceID` is added, in the Python insertion order.  `occStatus` is
the string on which `.lower()` succeeded. -/
def dwcCoreFields (rec : List (String × JVal))
    (basis_of_record_map : List (String × String)) (occStatus : String) :
    List (String × JVal) :=
  [("scientificName", pyOr (pyOr (dget rec "scientificName")
      (dget rec "acceptedScientificName")) (dget rec "name")),
   ("scientificNameAuthorship", dget rec "scientificNameAuthorship"),
   ("taxonRank", dget rec "taxonRank")] ++
  hierarchyFields.map (fun k => (k, dget rec k)) ++
  [("basisOfRecord",
      .str ((basis_of_record_map.lookup
        (pyLower (pyStrip (pyStr (pyOr (dget rec "basisOfRecord")
          (.str "")))))).getD "HUMAN_OBSERVATION")),
   ("recordedBy", pyOr (dget rec "recordedBy") (dget rec "observer")),
   ("recordNumber", dget rec "recordNumber"),
   ("occurrenceStatus", .str (pyLower occStatus)),
   ("individualCount", dget rec "individualCount"),
   ("sex", dget rec "sex"),
   ("lifeStage", dget rec "lifeStage"),
   ("eventDate", optStr (isoOf rec))] ++
  ymdFields (isoOf rec) ++
  [("decimalLatitude",
      optFloat (to_float (pyOr (dget rec "decimalLatitude") (dget rec "lat")))),
   ("decimalLongitude",
      optFloat (to_float (pyOr (dget rec "decimalLongitude") (dget rec "lon")))),
   ("coordinateUncertaintyInMeters",
      optFloat (to_float (pyOr (dget rec "coordinateUncertaintyInMeters")
        (dget rec "uncertainty")))),
   ("geodeticDatum", .str (ensure_wgs84 (dget rec "geodeticDatum"))),
   ("locality", pyOr (dget rec "locality") (dget rec "place")),
   ("municipality", dget rec "municipality"),
   ("county", dget rec "county"),
   ("stateProvince", dget rec "stateProvince"),
   ("country", dget rec "country"),
   ("countryCode", optStr (normalize_country_code (dget rec "countryCode"))),
   ("institutionCode", dget rec "institutionCode"),
   ("collectionCode", dget rec "collectionCode"),
   ("catalogNumber", dget rec "catalogNumber"),
   ("datasetName", pyOr (dget rec "datasetName") (.str "Pl@ntNet Occurrences")),
   ("datasetID", dget rec "datasetID"),
   ("license", pyOr (dget rec "license") (dget rec "rights")),
   ("references", pyOr (dget rec "references") (dget rec "reference")),
   ("identifiedBy", dget rec "identifiedBy"),
   ("dateIdentified", optStr (to_iso_date (dget rec "dateIdentified")))]

/-- `normalize_record_gbif` (lines 256-341).  The one statement of the
function that can raise is
`(rec.get("occurrenceStatus") or "present").lower()`: a truthy
non-string value has no `.lower` and raises `AttributeError`, modelled
as `Except.error`.  The final `occurrenceID` is built over
`{**rec, **out}` (line 340). -/
def normalize_record_gbif (rec : List (String × JVal))
    (basis_of_record_map : List (String × String)) :
    Except String (List (String × JVal)) :=
  match pyOr (dget rec "occurrenceStatus") (.str "present") with
  | .str occStatus =>
    let out0 := dwcCoreFields rec basis_of_record_map occStatus
    .ok (out0 ++ [("occurrenceID", .str (build_occurrence_id (pyMerge rec out0)))])
  | _ => .error "AttributeError"

/-! ### Payload extractor, schema defaults, exporter, pipeline -/

/-- The fixed priority list of container keys (line 367). -/
def containerKeys : List String :=
  ["occurrences", "records", "results", "data", "items"]

/-- The key scan of `find_occurrence_list`: first key whose value is a
list. -/
def findContainer (o : List (String × JVal)) : List String → Option (List JVal)
  | [] => none
  | k :: ks =>
    match o.lookup k with
    | some (.arr l) => some l
    | _ => findContainer o ks

/-- `find_occurrence_list` (lines 344-372). -/
def find_occurrence_list (payload : JVal) : List JVal :=
  match payload with
  | .arr l => l
  | .obj o =>
    (match findContainer o containerKeys with
     | some l => l
     | none => if truthy (.obj o) then [.obj o] else [])
  | _ => []

/-- `DEFAULT_DWC_CORE_FIELDS` (lines 48-63) exactly as Python evaluates
the literal: the adjacent string literals `"references"` and
`"datasetID"` at the line 60/61 boundary concatenate into the single
element `"referencesdatasetID"`. -/
def DEFAULT_DWC_CORE_FIELDS : List String :=
  ["occurrenceID", "basisOfRecord", "institutionCode", "collectionCode",
   "catalogNumber", "recordNumber", "recordedBy",
   "eventDate", "year", "month", "day",
   "country", "countryCode", "stateProvince", "county", "municipality",
   "locality", "decimalLatitude", "decimalLongitude",
   "coordinateUncertaintyInMeters", "geodeticDatum",
   "occurrenceStatus", "individualCount", "sex", "lifeStage",
   "identifiedBy", "dateIdentified",
   "scientificName", "scientificNameAuthorship", "taxonRank",
   "kingdom", "phylum", "class", "order", "family", "genus",
   "specificEpithet", "infraspecificEpithet",
   "datasetID", "datasetName", "license", "referencesdatasetID",
   "datasetName", "license", "references",
   "associatedMedia"]

/-- `DEFAULT_BASIS_OF_RECORD_MAP` (lines 65-76). -/
def DEFAULT_BASIS_OF_RECORD_MAP : List (String × String) :=
  [("human_observation", "HUMAN_OBSERVATION"),
   ("observation", "OBSERVATION"),
   ("machine_observation", "MACHINE_OBSERVATION"),
   ("preserved_specimen", "PRESERVED_SPECIMEN"),
   ("living_specimen", "LIVING_SPECIMEN"),
   ("material_sample", "MATERIAL_SAMPLE"),
   ("photograph", "HUMAN_OBSERVATION"),
   ("photo", "HUMAN_OBSERVATION"),
   ("image", "MACHINE_OBSERVATION")]

/-- The list comprehension of line 407: normalize the mapping-typed
records in input order, skipping the rest; a raised exception aborts the
whole comprehension. -/
def normalizeMappings (records : List JVal)
    (bmap : List (String × String)) :
    Except String (List (List (String × JVal))) :=
  match records with
  | [] => .ok []
  | .obj o :: rest => do
    let c ← normalize_record_gbif o bmap
    let cs ← normalizeMappings rest bmap
    .ok (c :: cs)
  | _ :: rest => normalizeMappings rest bmap

/-- The extra-key scan over one record's keys (lines 413-417): append
keys not yet seen, threading the `seen` set. -/
def scanKeysObj (entries : List (String × JVal)) (seen : List String) :
    List String × List String :=
  match entries with
  | [] => ([], seen)
  | (k, _) :: ks =>
    if k ∈ seen then scanKeysObj ks seen
    else
      let p := scanKeysObj ks (k :: seen)
      (k :: p.1, p.2)

/-- The extra-key scan over all records (lines 410-417), with
`seen = set(dwc_fields)` initially. -/
def scanExtraKeys (records : List JVal) (seen : List String) : List String :=
  match records with
  | [] => []
  | .obj o :: rest =>
    let p := scanKeysObj o seen
    p.1 ++ scanExtraKeys rest p.2
  | _ :: rest => scanExtraKeys rest seen

/-- Minimal JSON string escaping (quote, backslash, control chars). -/
def jsonEscapeChar (c : Char) : String :=
  if c = '"' then "\\\""
  else if c = '\\' then "\\\\"
  else if c = '\n' then "\\n"
  else if c = '\t' then "\\t"
  else if c = '\r' then "\\r"
  else if c.toNat < 32 then "\\u00" ++ byteHex c.toNat
  else String.singleton c

def jsonEscape (s : String) : String :=
  String.join (s.toList.map jsonEscapeChar)

mutual
/-- `json.dumps(v, ensure_ascii=False)` with its default separators
`", "` and `": "`. -/
def jsonDumps : JVal → String
  | .str s => "\"" ++ jsonEscape s ++ "\""
  | .int n => toString n
  | .float q => pyFloatStr q
  | .bool b => if b then "true" else "false"
  | .null => "null"
  | .arr l => "[" ++ String.intercalate ", " (jsonDumpsList l) ++ "]"
  | .obj o => "\x7b" ++ String.intercalate ", " (jsonDumpsPairs o) ++ "\x7d"

def jsonDumpsList : List JVal → List String
  | [] => []
  | v :: vs => jsonDumps v :: jsonDumpsList vs

def jsonDumpsPairs : List (String × JVal) → List String
  | [] => []
  | (k, v) :: ps => ("\"" ++ jsonEscape k ++ "\": " ++ jsonDumps v) :: jsonDumpsPairs ps
end

/-- The per-extra serialization of lines 429-431. -/
def serializeExtra (v : JVal) : JVal :=
  match v with
  | .arr _ => .str (jsonDumps v)
  | .obj _ => .str (jsonDumps v)
  | _ => v

/-- `row.setdefault(k, v)`: only set `k` when it has no value yet. -/
def setdefault (row : List (String × JVal)) (k : String) (v : JVal) :
    List (String × JVal) :=
  match row.lookup k with
  | some _ => row
  | none => row ++ [(k, v)]

/-- The extras loop of lines 427-433 applied to one row. -/
def applyExtras (row : List (String × JVal)) (raw : List (String × JVal)) :
    List String → List (String × JVal)
  | [] => row
  | k :: ks => applyExtras (setdefault row k (serializeExtra (dget raw k))) raw ks

/-- One CSV cell as `csv.DictWriter` renders a stored value: `None`
becomes the empty cell, anything else its `str()`. -/
def csvCell : JVal → String
  | .null => ""
  | v => pyStr v

/-- A data row as `csv.DictWriter.writerow` renders it: one cell per
field name, the `restval` empty cell for missing keys, keys outside the
field names ignored (`extrasaction="ignore"`). -/
def renderRow (fieldnames : List String) (row : List (String × JVal)) :
    List String :=
  fieldnames.map (fun f =>
    match row.lookup f with
    | some v => csvCell v
    | none => "")

/-- `export_dwc_gbif_csv` (lines 375-434), modelled as the written file:
header row (the Darwin-Core fields followed by the detected extra keys)
and the data rows.  Note the source's `zip(core_rows, records)`: the
normalized rows are paired with the raw records positionally over the
*unfiltered* list. -/
def export_dwc_gbif_csv (records : List JVal) (dwc_fields : List String)
    (basis_of_record_map : List (String × String)) :
    Except String (List String × List (List String)) :=
  match normalizeMappings records basis_of_record_map with
  | .error e => .error e
  | .ok core_rows =>
    let extra_keys := scanExtraKeys records dwc_fields
    let fieldnames := dwc_fields ++ extra_keys
    let rows := (core_rows.zip records).map (fun cr =>
      renderRow fieldnames
        (match cr.2 with
         | .obj o => applyExtras cr.1 o extra_keys
         | _ => cr.1))
    .ok (fieldnames, rows)

/-- `dwc_normalise_to_csv` (lines 437-498).  The input file is `none`
when missing (`FileNotFoundError`), `some none` when present but not
valid JSON (`json.JSONDecodeError`), `some (some v)` when it decodes to
`v`.  The optional configuration directory carries the two config files
already resolved through `load_json_config`'s fallback (`none` = absent,
unreadable or of mismatched type, replaced by the built-in default).
`.ok none` is a run that terminates without writing an output file. -/
def dwc_normalise_to_csv (rawFile : Option (Option JVal))
    (configDir : Option (Option (List String) × Option (List (String × String)))) :
    Except String (Option (List String × List (List String))) :=
  match rawFile with
  | none => .error "FileNotFoundError"
  | some none => .error "JSONDecodeError"
  | some (some data) =>
    let occs := find_occurrence_list data
    if occs.isEmpty then .ok none
    else
      let cfg := match configDir with
        | none => (DEFAULT_DWC_CORE_FIELDS, DEFAULT_BASIS_OF_RECORD_MAP)
        | some (f, m) =>
          (f.getD DEFAULT_DWC_CORE_FIELDS, m.getD DEFAULT_BASIS_OF_RECORD_MAP)
      match export_dwc_gbif_csv occs cfg.1 cfg.2 with
      | .error e => .error e
      | .ok file => .ok (some file)

/-- The payload-extractor contract exactly as the specification words it
(§4.1): a sequence unchanged; for a mapping, the value of the first key
among the well-known container keys whose value is a sequence; a
non-empty mapping with no such key as a one-element sequence; an empty
mapping or any other value as the empty sequence. -/
def payload_extractor_spec (payload : JVal) : List JVal :=
  match payload with
  | .arr l => l
  | .obj o =>
    (match containerKeys.findSome?
        (fun k => match o.lookup k with
          | some (.arr l) => some l
          | _ => none) with
     | some l => l
     | none => if o.isEmpty then [] else [payload])
  | _ => []

/-! ### Concrete inputs used by the witnesses and counterexamples -/

/-- Extract a field of a normalization result (for closed statements). -/
def fieldOf (e : Except String (List (String × JVal))) (k : String) :
    Option JVal :=
  match e with
  | .ok o => o.lookup k
  | .error _ => none

/-- Extract the `occurrenceID` string of a normalization result. -/
def oidOf (e : Except String (List (String × JVal))) : Option String :=
  match fieldOf e "occurrenceID" with
  | some (.str s) => some s
  | _ => none

def c1wRec : List (String × JVal) :=
  [("occurrenceID", .str "occ-1"), ("id", .str "alt-2")]

def c1wOut : List (String × JVal) :=
  match normalize_record_gbif c1wRec DEFAULT_BASIS_OF_RECORD_MAP with
  | .ok o => o
  | .error _ => []

def c2wRecords : List JVal :=
  [.obj [("occurrenceID", .str "A"), ("note", .str "N")]]

def c2wFields : List String := ["occurrenceID", "datasetName"]

def c2wCore : List (List (String × JVal)) :=
  match normalizeMappings c2wRecords DEFAULT_BASIS_OF_RECORD_MAP with
  | .ok c => c
  | .error _ => []

def c2wHdr : List String :=
  match export_dwc_gbif_csv c2wRecords c2wFields DEFAULT_BASIS_OF_RECORD_MAP with
  | .ok p => p.1
  | .error _ => []

def c2wRows : List (List String) :=
  match export_dwc_gbif_csv c2wRecords c2wFields DEFAULT_BASIS_OF_RECORD_MAP with
  | .ok p => p.2
  | .error _ => []

/-- Two records that lack `occurrenceID`/`id` and differ only in the
scientific name (one of the five seed attributes). -/
def c6recA : List (String × JVal) := [("scientificName", .str "Iris japonica")]

def c6recB : List (String × JVal) := [("scientificName", .str "Rosa canina")]

def c6wRec : List (String × JVal) := [("note", .str "w")]

def c6wOut : List (String × JVal) :=
  match normalize_record_gbif c6wRec DEFAULT_BASIS_OF_RECORD_MAP with
  | .ok o => o
  | .error _ => []

/-- A record whose `decimalLatitude` is the (falsy) number `0` while the
fallback `lat` is `5`. -/
def c9cexRec : List (String × JVal) :=
  [("occurrenceID", .str "X"), ("decimalLatitude", .int 0), ("lat", .int 5)]

def c9wRec : List (String × JVal) :=
  [("occurrenceID", .str "Y"), ("decimalLatitude", .str "1.5"),
   ("lat", .int 7), ("lon", .int 8), ("uncertainty", .int 9)]

def c9wOut : List (String × JVal) :=
  match normalize_record_gbif c9wRec DEFAULT_BASIS_OF_RECORD_MAP with
  | .ok o => o
  | .error _ => []

def c10wData : JVal := .arr [.obj [("occurrenceID", .str "A")]]

def c10wHdr : List String :=
  match dwc_normalise_to_csv (some (some c10wData)) none with
  | .ok (some p) => p.1
  | _ => []

def c10wRows : List (List String) :=
  match dwc_normalise_to_csv (some (some c10wData)) none with
  | .ok (some p) => p.2
  | _ => []

/-! ### Lemma toolkit for association-list lookups -/

theorem lookup_append_none {k : String} {l₁ l₂ : List (String × JVal)}
    (h : l₁.lookup k = none) : (l₁ ++ l₂).lookup k = l₂.lookup k := by
  induction l₁ with
  | nil => simp
  | cons p t ih =>
    rcases p with ⟨k', v⟩
    by_cases hk : k = k'
    · subst hk; simp [List.lookup] at h
    · simp only [List.cons_append, List.lookup,
        beq_eq_false_iff_ne.mpr hk] at h ⊢
      exact ih h

theorem lookup_append_some {k : String} {v : JVal} {l₁ l₂ : List (String × JVal)}
    (h : l₁.lookup k = some v) : (l₁ ++ l₂).lookup k = some v := by
  induction l₁ with
  | nil => simp at h
  | cons p t ih =>
    rcases p with ⟨k', w⟩
    by_cases hk : k = k'
    · subst hk; simp [List.lookup] at h ⊢; exact h
    · simp only [List.cons_append, List.lookup,
        beq_eq_false_iff_ne.mpr hk] at h ⊢
      exact ih h

theorem lookup_filter_keyTrue {k : String} {p : String × JVal → Bool}
    {l : List (String × JVal)} (hp : ∀ v, p (k, v) = true) :
    (l.filter p).lookup k = l.lookup k := by
  induction l with
  | nil => simp
  | cons q t ih =>
    rcases q with ⟨k', v⟩
    by_cases hk : k = k'
    · subst hk
      simp [List.filter, hp v, List.lookup]
    · by_cases hpv : p (k', v)
      · simp only [List.filter, hpv, List.lookup,
          beq_eq_false_iff_ne.mpr hk]
        exact ih
      · simp only [List.filter, hpv, List.lookup]
        rw [ih]
        simp [List.lookup, beq_eq_false_iff_ne.mpr hk]


/-- Looking a key up in a key-preserving map of an association list. -/
theorem lookup_map_keyed (k : String) (g : String × JVal → JVal) :
    ∀ a : List (String × JVal),
      (a.map (fun p => (p.1, g p))).lookup k =
        (a.find? (fun p => k == p.1)).map g := by
  intro a
  induction a with
  | nil => simp
  | cons p t ih =>
    rcases p with ⟨k', v⟩
    by_cases hk : k = k'
    · subst hk; simp [List.lookup, List.find?]
    · simp only [List.map_cons, List.lookup, List.find?,
        beq_eq_false_iff_ne.mpr hk]
      exact ih

/-- A successful lookup comes from a `find?` on the key. -/
theorem find?_of_lookup_some {k : String} {v : JVal} :
    ∀ {a : List (String × JVal)}, a.lookup k = some v →
      a.find? (fun p => k == p.1) = some (k, v) := by
  intro a
  induction a with
  | nil => intro h; simp [List.lookup] at h
  | cons p t ih =>
    rcases p with ⟨k', w⟩
    by_cases hk : k = k'
    · subst hk
      intro h
      simp only [List.lookup, beq_self_eq_true] at h
      simp only [List.find?, beq_self_eq_true]
      cases h
      rfl
    · intro h
      simp only [List.lookup, beq_eq_false_iff_ne.mpr hk] at h
      simp only [List.find?, beq_eq_false_iff_ne.mpr hk]
      exact ih h

/-- A failed lookup means `find?` on the key fails too. -/
theorem find?_of_lookup_none {k : String} :
    ∀ {a : List (String × JVal)}, a.lookup k = none →
      a.find? (fun p => k == p.1) = none := by
  intro a
  induction a with
  | nil => intro _; simp
  | cons p t ih =>
    rcases p with ⟨k', w⟩
    by_cases hk : k = k'
    · subst hk; intro h; simp [List.lookup] at h
    · intro h
      simp only [List.lookup, beq_eq_false_iff_ne.mpr hk] at h
      simp only [List.find?, beq_eq_false_iff_ne.mpr hk]
      exact ih h

/-- `{**a, **b}` looks up like: `b` wins when `a` has the key, else `b`
alone decides. -/
theorem pyMerge_lookup (a b : List (String × JVal)) (k : String) :
    (pyMerge a b).lookup k =
      match a.lookup k with
      | some v => some ((b.lookup k).getD v)
      | none => b.lookup k := by
  unfold pyMerge
  cases ha : a.lookup k with
  | some v =>
    have hmap : (a.map (fun p => (p.1, (b.lookup p.1).getD p.2))).lookup k =
        some ((b.lookup k).getD v) := by
      rw [lookup_map_keyed k (fun p => (b.lookup p.1).getD p.2) a,
        find?_of_lookup_some ha]
      rfl
    rw [lookup_append_some hmap]
  | none =>
    have hmap : (a.map (fun p => (p.1, (b.lookup p.1).getD p.2))).lookup k = none := by
      rw [lookup_map_keyed k (fun p => (b.lookup p.1).getD p.2) a,
        find?_of_lookup_none ha]
      rfl
    rw [lookup_append_none hmap]
    exact lookup_filter_keyTrue (fun v => by simp [ha])

/-- `ymdFields` is either empty or exactly the three `year`/`month`/`day`
entries. -/
theorem ymd_shape (iso : Option String) :
    ymdFields iso = [] ∨ ∃ y mo d : Int, ymdFields iso =
      [("year", .int y), ("month", .int mo), ("day", .int d)] := by
  unfold ymdFields
  cases iso with
  | none => exact Or.inl rfl
  | some s =>
    dsimp only
    split
    · split
      · right; exact ⟨_, _, _, rfl⟩
      · left; rfl
    · left; rfl

theorem dwcCore_lookup_occID (rec : List (String × JVal))
    (bmap : List (String × String)) (s : String) :
    (dwcCoreFields rec bmap s).lookup "occurrenceID" = none := by
  unfold dwcCoreFields
  rcases ymd_shape (isoOf rec) with h | ⟨y, mo, d, h⟩ <;> rw [h] <;> rfl

theorem dwcCore_lookup_id (rec : List (String × JVal))
    (bmap : List (String × String)) (s : String) :
    (dwcCoreFields rec bmap s).lookup "id" = none := by
  unfold dwcCoreFields
  rcases ymd_shape (isoOf rec) with h | ⟨y, mo, d, h⟩ <;> rw [h] <;> rfl

theorem dwcCore_lookup_sci (rec : List (String × JVal))
    (bmap : List (String × String)) (s : String) :
    (dwcCoreFields rec bmap s).lookup "scientificName" =
      some (pyOr (pyOr (dget rec "scientificName")
        (dget rec "acceptedScientificName")) (dget rec "name")) := by
  unfold dwcCoreFields
  rcases ymd_shape (isoOf rec) with h | ⟨y, mo, d, h⟩ <;> rw [h] <;> rfl

theorem dwcCore_lookup_eventDate (rec : List (String × JVal))
    (bmap : List (String × String)) (s : String) :
    (dwcCoreFields rec bmap s).lookup "eventDate" = some (optStr (isoOf rec)) := by
  unfold dwcCoreFields
  rcases ymd_shape (isoOf rec) with h | ⟨y, mo, d, h⟩ <;> rw [h] <;> rfl

theorem dwcCore_lookup_lat (rec : List (String × JVal))
    (bmap : List (String × String)) (s : String) :
    (dwcCoreFields rec bmap s).lookup "decimalLatitude" =
      some (optFloat (to_float (pyOr (dget rec "decimalLatitude")
        (dget rec "lat")))) := by
  unfold dwcCoreFields
  rcases ymd_shape (isoOf rec) with h | ⟨y, mo, d, h⟩ <;> rw [h] <;> rfl

theorem dwcCore_lookup_lon (rec : List (String × JVal))
    (bmap : List (String × String)) (s : String) :
    (dwcCoreFields rec bmap s).lookup "decimalLongitude" =
      some (optFloat (to_float (pyOr (dget rec "decimalLongitude")
        (dget rec "lon")))) := by
  unfold dwcCoreFields
  rcases ymd_shape (isoOf rec) with h | ⟨y, mo, d, h⟩ <;> rw [h] <;> rfl

theorem dwcCore_lookup_unc (rec : List (String × JVal))
    (bmap : List (String × String)) (s : String) :
    (dwcCoreFields rec bmap s).lookup "coordinateUncertaintyInMeters" =
      some (optFloat (to_float (pyOr (dget rec "coordinateUncertaintyInMeters")
        (dget rec "uncertainty")))) := by
  unfold dwcCoreFields
  rcases ymd_shape (isoOf rec) with h | ⟨y, mo, d, h⟩ <;> rw [h] <;> rfl

theorem dwcCore_lookup_datasetName (rec : List (String × JVal))
    (bmap : List (String × String)) (s : String) :
    (dwcCoreFields rec bmap s).lookup "datasetName" =
      some (pyOr (dget rec "datasetName") (.str "Pl@ntNet Occurrences")) := by
  unfold dwcCoreFields
  rcases ymd_shape (isoOf rec) with h | ⟨y, mo, d, h⟩ <;> rw [h] <;> rfl

/-- Shape of every successful `normalize_record_gbif` run. -/
theorem normalize_ok_shape {rec : List (String × JVal)}
    {bmap : List (String × String)} {out : List (String × JVal)}
    (h : normalize_record_gbif rec bmap = .ok out) :
    ∃ s : String, pyOr (dget rec "occurrenceStatus") (.str "present") = .str s ∧
      out = dwcCoreFields rec bmap s ++
        [("occurrenceID",
          .str (build_occurrence_id (pyMerge rec (dwcCoreFields rec bmap s))))] := by
  unfold normalize_record_gbif at h
  split at h
  case h_1 s heq =>
    refine ⟨s, heq, ?_⟩
    simpa using h.symm
  case h_2 heq _ => cases h

/-- The `occurrenceID` of every normalized record is the one added by
`build_occurrence_id` over `{**rec, **out}`. -/
theorem normalize_occurrenceID {rec : List (String × JVal)}
    {bmap : List (String × String)} {out : List (String × JVal)} {s : String}
    (hout : out = dwcCoreFields rec bmap s ++
      [("occurrenceID",
        .str (build_occurrence_id (pyMerge rec (dwcCoreFields rec bmap s))))]) :
    dget out "occurrenceID" =
      .str (build_occurrence_id (pyMerge rec (dwcCoreFields rec bmap s))) := by
  subst hout
  rw [dget, lookup_append_none (dwcCore_lookup_occID rec bmap s)]
  rfl

theorem pyOr_pos {a : JVal} (b : JVal) (h : truthy a = true) : pyOr a b = a := by
  simp [pyOr, h]

theorem pyOr_neg {a : JVal} (b : JVal) (h : truthy a = false) : pyOr a b = b := by
  simp [pyOr, h]

/-- The merged `{**rec, **out}` view reads `occurrenceID` and `id` from
the raw record (the core fields contain neither key). -/
theorem pyMerge_dget_occID (rec : List (String × JVal))
    (bmap : List (String × String)) (s : String) :
    dget (pyMerge rec (dwcCoreFields rec bmap s)) "occurrenceID" =
      dget rec "occurrenceID" := by
  unfold dget
  rw [pyMerge_lookup]
  cases ha : rec.lookup "occurrenceID" <;> simp [dwcCore_lookup_occID]

theorem pyMerge_dget_id (rec : List (String × JVal))
    (bmap : List (String × String)) (s : String) :
    dget (pyMerge rec (dwcCoreFields rec bmap s)) "id" = dget rec "id" := by
  unfold dget
  rw [pyMerge_lookup]
  cases ha : rec.lookup "id" <;> simp [dwcCore_lookup_id]

/-- C1: for every raw record carrying a non-empty `occurrenceID` or `id`,
the `occurrenceID` of the normalized record is that raw value passed
through `str()` — the identity on strings — and `occurrenceID` is
preferred over `id` whenever it is itself non-empty. -/
theorem c1_identity_passthrough (rec : List (String × JVal))
    (bmap : List (String × String)) (out : List (String × JVal))
    (h : normalize_record_gbif rec bmap = .ok out) :
    (∀ s0 : String, dget rec "occurrenceID" = .str s0 → s0 ≠ "" →
        dget out "occurrenceID" = .str s0)
  ∧ (truthy (dget rec "occurrenceID") = true →
        dget out "occurrenceID" = .str (pyStr (dget rec "occurrenceID")))
  ∧ (truthy (dget rec "occurrenceID") = false →
      truthy (dget rec "id") = true →
        dget out "occurrenceID" = .str (pyStr (dget rec "id"))) := by
  obtain ⟨s, hst, hout⟩ := normalize_ok_shape h
  have hoid := normalize_occurrenceID hout
  have hpos : truthy (pyOr (dget rec "occurrenceID") (dget rec "id")) = true →
      build_occurrence_id (pyMerge rec (dwcCoreFields rec bmap s)) =
        pyStr (pyOr (dget rec "occurrenceID") (dget rec "id")) := by
    intro ht
    simp only [build_occurrence_id]
    rw [pyMerge_dget_occID rec bmap s, pyMerge_dget_id rec bmap s, if_pos ht]
  refine ⟨?_, ?_, ?_⟩
  · intro s0 hs0 hne
    have htv : truthy (dget rec "occurrenceID") = true := by
      rw [hs0]; simp [truthy, hne]
    have ht : truthy (pyOr (dget rec "occurrenceID") (dget rec "id")) = true := by
      rw [pyOr_pos _ htv]; exact htv
    rw [hoid, hpos ht, pyOr_pos _ htv, hs0]
    rfl
  · intro htv
    have ht : truthy (pyOr (dget rec "occurrenceID") (dget rec "id")) = true := by
      rw [pyOr_pos _ htv]; exact htv
    rw [hoid, hpos ht, pyOr_pos _ htv]
  · intro hocc hid
    have ht : truthy (pyOr (dget rec "occurrenceID") (dget rec "id")) = true := by
      rw [pyOr_neg _ hocc]; exact hid
    rw [hoid, hpos ht, pyOr_neg _ hocc]

/-- Witness for C1: a concrete record carrying both identifiers keeps its
`occurrenceID` verbatim. -/
theorem c1_identity_passthrough_witness :
    normalize_record_gbif c1wRec DEFAULT_BASIS_OF_RECORD_MAP = .ok c1wOut ∧
    dget c1wRec "occurrenceID" = .str "occ-1" ∧ ("occ-1" : String) ≠ "" ∧
    dget c1wOut "occurrenceID" = .str "occ-1" := by
  have h : normalize_record_gbif c1wRec DEFAULT_BASIS_OF_RECORD_MAP = .ok c1wOut := rfl
  exact ⟨h, rfl, by decide,
    (c1_identity_passthrough c1wRec DEFAULT_BASIS_OF_RECORD_MAP c1wOut h).1
      "occ-1" rfl (by decide)⟩

theorem pyMerge_lookup_some {a b : List (String × JVal)} {k : String} {v : JVal}
    (h : b.lookup k = some v) : (pyMerge a b).lookup k = some v := by
  rw [pyMerge_lookup]
  cases ha : a.lookup k <;> simp [h]

theorem seedPart_of_some {d : List (String × JVal)} {k : String} {v : JVal}
    (h : d.lookup k = some v) (dflt : String) : seedPart d k dflt = pyStr v := by
  unfold seedPart
  rw [h]

set_option maxRecDepth 4000 in
/-- C6: when a raw record lacks both `occurrenceID` and `id`, the
generated identifier is a pure function (a version-5 UUID in the URL
namespace) of the five normalized seed attributes — so re-running
normalization on the identical record reproduces it — and two concrete
records differing only in the scientific name receive different
identifiers. -/
theorem c6_deterministic_uuid (rec : List (String × JVal))
    (bmap : List (String × String)) (out : List (String × JVal))
    (hocc : truthy (dget rec "occurrenceID") = false)
    (hid : truthy (dget rec "id") = false)
    (h : normalize_record_gbif rec bmap = .ok out) :
    (dget out "occurrenceID" =
      .str (uuid5 NAMESPACE_URL
        (pyStr (dget out "scientificName") ++ "|" ++
         pyStr (dget out "eventDate") ++ "|" ++
         pyStr (dget out "decimalLatitude") ++ "|" ++
         pyStr (dget out "decimalLongitude") ++ "|" ++
         pyStr (dget out "datasetName"))))
  ∧ oidOf (normalize_record_gbif c6recA DEFAULT_BASIS_OF_RECORD_MAP) ≠
      oidOf (normalize_record_gbif c6recB DEFAULT_BASIS_OF_RECORD_MAP)
  ∧ (oidOf (normalize_record_gbif c6recA DEFAULT_BASIS_OF_RECORD_MAP)).isSome
      = true := by
  obtain ⟨s, hst, hout⟩ := normalize_ok_shape h
  have hoid := normalize_occurrenceID hout
  have hneg : truthy (pyOr (dget rec "occurrenceID") (dget rec "id")) = false := by
    rw [pyOr_neg _ hocc]; exact hid
  have hbuild : build_occurrence_id (pyMerge rec (dwcCoreFields rec bmap s)) =
      uuid5 NAMESPACE_URL
        (seedPart (pyMerge rec (dwcCoreFields rec bmap s)) "scientificName" "" ++
         "|" ++ seedPart (pyMerge rec (dwcCoreFields rec bmap s)) "eventDate" "" ++
         "|" ++
         seedPart (pyMerge rec (dwcCoreFields rec bmap s)) "decimalLatitude" "" ++
         "|" ++
         seedPart (pyMerge rec (dwcCoreFields rec bmap s)) "decimalLongitude" "" ++
         "|" ++
         seedPart (pyMerge rec (dwcCoreFields rec bmap s)) "datasetName"
           "plantnet") := by
    simp only [build_occurrence_id]
    rw [pyMerge_dget_occID rec bmap s, pyMerge_dget_id rec bmap s]
    rw [if_neg (by simp [hneg])]
  have hOf : ∀ (k : String) (v : JVal), (dwcCoreFields rec bmap s).lookup k = some v →
      dget out k = v := by
    intro k v hk
    rw [hout, dget, lookup_append_some hk]
    rfl
  have hA : oidOf (normalize_record_gbif c6recA DEFAULT_BASIS_OF_RECORD_MAP) =
      some "9cc3ec97-d4a2-5f85-ac2d-59df42d3681e" := rfl
  have hB : oidOf (normalize_record_gbif c6recB DEFAULT_BASIS_OF_RECORD_MAP) =
      some "e127e033-8465-51a2-bb53-97b9c9386dae" := rfl
  refine ⟨?_, by rw [hA, hB]; decide, by rw [hA]; rfl⟩
  rw [hoid, hbuild,
    seedPart_of_some (pyMerge_lookup_some (dwcCore_lookup_sci rec bmap s)) "",
    seedPart_of_some (pyMerge_lookup_some (dwcCore_lookup_eventDate rec bmap s)) "",
    seedPart_of_some (pyMerge_lookup_some (dwcCore_lookup_lat rec bmap s)) "",
    seedPart_of_some (pyMerge_lookup_some (dwcCore_lookup_lon rec bmap s)) "",
    seedPart_of_some (pyMerge_lookup_some (dwcCore_lookup_datasetName rec bmap s))
      "plantnet",
    hOf "scientificName" _ (dwcCore_lookup_sci rec bmap s),
    hOf "eventDate" _ (dwcCore_lookup_eventDate rec bmap s),
    hOf "decimalLatitude" _ (dwcCore_lookup_lat rec bmap s),
    hOf "decimalLongitude" _ (dwcCore_lookup_lon rec bmap s),
    hOf "datasetName" _ (dwcCore_lookup_datasetName rec bmap s)]

/-- Witness for C6: a concrete record lacking both identifiers gets the
UUID5 of its normalized seed attributes. -/
theorem c6_deterministic_uuid_witness :
    truthy (dget c6wRec "occurrenceID") = false ∧
    truthy (dget c6wRec "id") = false ∧
    normalize_record_gbif c6wRec DEFAULT_BASIS_OF_RECORD_MAP = .ok c6wOut ∧
    dget c6wOut "occurrenceID" =
      .str (uuid5 NAMESPACE_URL
        (pyStr (dget c6wOut "scientificName") ++ "|" ++
         pyStr (dget c6wOut "eventDate") ++ "|" ++
         pyStr (dget c6wOut "decimalLatitude") ++ "|" ++
         pyStr (dget c6wOut "decimalLongitude") ++ "|" ++
         pyStr (dget c6wOut "datasetName"))) := by
  have h : normalize_record_gbif c6wRec DEFAULT_BASIS_OF_RECORD_MAP = .ok c6wOut := rfl
  exact ⟨rfl, rfl, h,
    (c6_deterministic_uuid c6wRec DEFAULT_BASIS_OF_RECORD_MAP c6wOut rfl rfl h).1⟩

/-- C9 counterexample: a record with `decimalLatitude = 0` (a present,
non-empty numeric value) and `lat = 5` normalizes to 5.0 — not to the
numeric normalization 0.0 of the first-listed source field, refuting the
claim at this input. -/
theorem c9_zero_latitude_cex :
    fieldOf (normalize_record_gbif c9cexRec DEFAULT_BASIS_OF_RECORD_MAP)
      "decimalLatitude" = some (.float 5)
  ∧ to_float (dget c9cexRec "decimalLatitude") = some 0
  ∧ JVal.float 5 ≠ JVal.float 0 := by
  refine ⟨rfl, rfl, fun hc => absurd (JVal.float.inj hc) (by norm_num)⟩

/-- C9 (amended): the first-listed coordinate source field wins exactly
when it is truthy (non-empty and non-zero); otherwise — including the
numeric value 0 — the fallback field (`lat`, `lon`, `uncertainty`) is
consulted, each through the numeric normalizer. -/
theorem c9_truthiness_precedence (rec : List (String × JVal))
    (bmap : List (String × String)) (out : List (String × JVal))
    (h : normalize_record_gbif rec bmap = .ok out) :
    (truthy (dget rec "decimalLatitude") = true →
        dget out "decimalLatitude" =
          optFloat (to_float (dget rec "decimalLatitude")))
  ∧ (truthy (dget rec "decimalLatitude") = false →
        dget out "decimalLatitude" = optFloat (to_float (dget rec "lat")))
  ∧ (truthy (dget rec "decimalLongitude") = true →
        dget out "decimalLongitude" =
          optFloat (to_float (dget rec "decimalLongitude")))
  ∧ (truthy (dget rec "decimalLongitude") = false →
        dget out "decimalLongitude" = optFloat (to_float (dget rec "lon")))
  ∧ (truthy (dget rec "coordinateUncertaintyInMeters") = true →
        dget out "coordinateUncertaintyInMeters" =
          optFloat (to_float (dget rec "coordinateUncertaintyInMeters")))
  ∧ (truthy (dget rec "coordinateUncertaintyInMeters") = false →
        dget out "coordinateUncertaintyInMeters" =
          optFloat (to_float (dget rec "uncertainty"))) := by
  obtain ⟨s, hst, hout⟩ := normalize_ok_shape h
  have hlat : dget out "decimalLatitude" =
      optFloat (to_float (pyOr (dget rec "decimalLatitude") (dget rec "lat"))) := by
    rw [hout, dget, lookup_append_some (dwcCore_lookup_lat rec bmap s)]
    rfl
  have hlon : dget out "decimalLongitude" =
      optFloat (to_float (pyOr (dget rec "decimalLongitude") (dget rec "lon"))) := by
    rw [hout, dget, lookup_append_some (dwcCore_lookup_lon rec bmap s)]
    rfl
  have hunc : dget out "coordinateUncertaintyInMeters" =
      optFloat (to_float (pyOr (dget rec "coordinateUncertaintyInMeters")
        (dget rec "uncertainty"))) := by
    rw [hout, dget, lookup_append_some (dwcCore_lookup_unc rec bmap s)]
    rfl
  exact ⟨fun ht => by rw [hlat, pyOr_pos _ ht],
    fun hf => by rw [hlat, pyOr_neg _ hf],
    fun ht => by rw [hlon, pyOr_pos _ ht],
    fun hf => by rw [hlon, pyOr_neg _ hf],
    fun ht => by rw [hunc, pyOr_pos _ ht],
    fun hf => by rw [hunc, pyOr_neg _ hf]⟩

/-- Witness for the amended C9 at a concrete record with a truthy
`decimalLatitude` and falsy longitude/uncertainty sources. -/
theorem c9_truthiness_precedence_witness :
    normalize_record_gbif c9wRec DEFAULT_BASIS_OF_RECORD_MAP = .ok c9wOut ∧
    truthy (dget c9wRec "decimalLatitude") = true ∧
    truthy (dget c9wRec "decimalLongitude") = false ∧
    dget c9wOut "decimalLatitude" =
      optFloat (to_float (dget c9wRec "decimalLatitude")) ∧
    dget c9wOut "decimalLongitude" = optFloat (to_float (dget c9wRec "lon")) := by
  have h : normalize_record_gbif c9wRec DEFAULT_BASIS_OF_RECORD_MAP = .ok c9wOut := rfl
  have hc := c9_truthiness_precedence c9wRec DEFAULT_BASIS_OF_RECORD_MAP c9wOut h
  exact ⟨h, rfl, rfl, hc.1 rfl, hc.2.2.2.1 rfl⟩

/-- C5: evaluation at the input `"2024-03-15"`: the `%Y-%m-%d` pattern is
tried first and matches, so `to_iso_date` forces UTC midnight and returns
`"2024-03-15T00:00:00Z"` — not the date-only verbatim string — while
`year/month/day` are still derived as 2024/3/15. -/
theorem c5_date_roundtrip_eval :
    to_iso_date (.str "2024-03-15") = some "2024-03-15T00:00:00Z"
  ∧ some "2024-03-15T00:00:00Z" ≠ some "2024-03-15"
  ∧ fieldOf (normalize_record_gbif
      [("eventDate", .str "2024-03-15"), ("occurrenceID", .str "d")]
      DEFAULT_BASIS_OF_RECORD_MAP) "eventDate" =
        some (.str "2024-03-15T00:00:00Z")
  ∧ fieldOf (normalize_record_gbif
      [("eventDate", .str "2024-03-15"), ("occurrenceID", .str "d")]
      DEFAULT_BASIS_OF_RECORD_MAP) "year" = some (.int 2024)
  ∧ fieldOf (normalize_record_gbif
      [("eventDate", .str "2024-03-15"), ("occurrenceID", .str "d")]
      DEFAULT_BASIS_OF_RECORD_MAP) "month" = some (.int 3)
  ∧ fieldOf (normalize_record_gbif
      [("eventDate", .str "2024-03-15"), ("occurrenceID", .str "d")]
      DEFAULT_BASIS_OF_RECORD_MAP) "day" = some (.int 15) :=
  ⟨rfl, by decide, rfl, rfl, rfl, rfl⟩

/-- C4: a record whose `occurrenceStatus` is the truthy non-string `1`
makes `(rec.get("occurrenceStatus") or "present").lower()` raise
`AttributeError`, and the error propagates out of a pipeline run on a
perfectly valid JSON input file. -/
theorem c4_occurrence_status_crash :
    normalize_record_gbif [("occurrenceStatus", .int 1)]
      DEFAULT_BASIS_OF_RECORD_MAP = .error "AttributeError"
  ∧ dwc_normalise_to_csv
      (some (some (.arr [.obj [("occurrenceStatus", .int 1)]]))) none =
      .error "AttributeError" :=
  ⟨rfl, rfl⟩

/-- C3: with input `[7, {occurrenceID: "A", note: "E"}]`, the exporter
pairs the single normalized row with the *first* raw entry `7` (the
non-mapping integer) instead of the record it came from, so the written
row's `note` cell is empty even though that raw record carries
`note = "E"`. -/
theorem c3_zip_misalignment :
    export_dwc_gbif_csv
      [.int 7, .obj [("occurrenceID", .str "A"), ("note", .str "E")]]
      ["occurrenceID"] DEFAULT_BASIS_OF_RECORD_MAP =
      .ok (["occurrenceID", "note"], [["A", ""]])
  ∧ dget [("occurrenceID", JVal.str "A"), ("note", .str "E")] "note" = .str "E" :=
  ⟨rfl, rfl⟩

/-- The key scan of the extractor equals a `findSome?` over the priority
list. -/
theorem findContainer_eq_findSome (o : List (String × JVal)) (ks : List String) :
    findContainer o ks = ks.findSome? (fun k =>
      match o.lookup k with
      | some (.arr l) => some l
      | _ => none) := by
  induction ks with
  | nil => rfl
  | cons k ks ih =>
    simp only [findContainer, List.findSome?]
    cases h : o.lookup k with
    | none => simp [ih]
    | some v => cases v <;> simp [ih]

/-- C7: the payload extractor implements exactly the enumerated contract
of the claim — a sequence unchanged, the first priority key holding a
sequence, the singleton fallback for a non-empty mapping, the empty
sequence otherwise — and, being a total function, it never raises. -/
theorem c7_payload_extractor (p : JVal) :
    find_occurrence_list p = payload_extractor_spec p := by
  cases p with
  | obj o =>
    simp only [find_occurrence_list, payload_extractor_spec,
      findContainer_eq_findSome]
    cases List.findSome? (fun k =>
        match o.lookup k with
        | some (.arr l) => some l
        | _ => none) containerKeys with
    | some l => rfl
    | none => cases o <;> rfl
  | str s => rfl
  | int n => rfl
  | float q => rfl
  | bool b => rfl
  | null => rfl
  | arr l => rfl

/-- C8: when the extracted occurrence sequence is empty the pipeline
terminates without raising and without writing an output file. -/
theorem c8_empty_input (data : JVal)
    (cfg : Option (Option (List String) × Option (List (String × String))))
    (h : find_occurrence_list data = []) :
    dwc_normalise_to_csv (some (some data)) cfg = .ok none := by
  simp [dwc_normalise_to_csv, h]

/-- Witness for C8 at the empty-JSON-list input. -/
theorem c8_empty_input_witness :
    find_occurrence_list (.arr []) = [] ∧
    dwc_normalise_to_csv (some (some (.arr []))) none = .ok none :=
  ⟨rfl, c8_empty_input (.arr []) none rfl⟩

/-- The `seen` set only grows during one record's key scan. -/
theorem scanKeysObj_seen_sub {k : String} :
    ∀ (entries : List (String × JVal)) (seen : List String), k ∈ seen →
      k ∈ (scanKeysObj entries seen).2 := by
  intro entries
  induction entries with
  | nil => intro seen h; simpa [scanKeysObj] using h
  | cons p t ih =>
    intro seen h
    rcases p with ⟨k2, v⟩
    by_cases h2 : k2 ∈ seen
    · simpa [scanKeysObj, h2] using ih seen h
    · simpa [scanKeysObj, h2] using ih (k2 :: seen) (List.mem_cons_of_mem _ h)

/-- A key already seen is never emitted by one record's key scan. -/
theorem scanKeysObj_not_mem {k : String} :
    ∀ (entries : List (String × JVal)) (seen : List String), k ∈ seen →
      k ∉ (scanKeysObj entries seen).1 := by
  intro entries
  induction entries with
  | nil => intro seen _; simp [scanKeysObj]
  | cons p t ih =>
    intro seen h
    rcases p with ⟨k2, v⟩
    by_cases h2 : k2 ∈ seen
    · simpa [scanKeysObj, h2] using ih seen h
    · have hk2 : k ≠ k2 := fun he => h2 (he ▸ h)
      simpa [scanKeysObj, h2, hk2] using
        ih (k2 :: seen) (List.mem_cons_of_mem _ h)

/-- A key in the initial `seen` set (in particular every Darwin-Core
field) is never an extra key. -/
theorem scanExtraKeys_not_mem {k : String} :
    ∀ (records : List JVal) (seen : List String), k ∈ seen →
      k ∉ scanExtraKeys records seen := by
  intro records
  induction records with
  | nil => intro seen _; simp [scanExtraKeys]
  | cons r t ih =>
    intro seen h
    cases r with
    | obj o =>
      simp only [scanExtraKeys, List.mem_append]
      push_neg
      exact ⟨scanKeysObj_not_mem o seen h,
        ih (scanKeysObj o seen).2 (scanKeysObj_seen_sub o seen h)⟩
    | str s => simpa [scanExtraKeys] using ih seen h
    | int n => simpa [scanExtraKeys] using ih seen h
    | float q => simpa [scanExtraKeys] using ih seen h
    | bool b => simpa [scanExtraKeys] using ih seen h
    | null => simpa [scanExtraKeys] using ih seen h
    | arr l => simpa [scanExtraKeys] using ih seen h

/-- `setdefault` on a different key does not change a lookup. -/
theorem setdefault_lookup_ne {k k2 : String} (hne : k ≠ k2)
    (row : List (String × JVal)) (v : JVal) :
    (setdefault row k2 v).lookup k = row.lookup k := by
  unfold setdefault
  cases h2 : row.lookup k2 with
  | some w => rfl
  | none =>
    cases hk : row.lookup k with
    | some w => exact lookup_append_some hk
    | none =>
      rw [lookup_append_none hk]
      simp [List.lookup, beq_eq_false_iff_ne.mpr hne]

/-- The extras loop never changes a lookup outside the extra-key list. -/
theorem applyExtras_lookup_not_mem {k : String}
    {raw : List (String × JVal)} :
    ∀ (ks : List String) (row : List (String × JVal)), k ∉ ks →
      (applyExtras row raw ks).lookup k = row.lookup k := by
  intro ks
  induction ks with
  | nil => intro row _; rfl
  | cons k2 t ih =>
    intro row h
    have hne : k ≠ k2 := fun he => h (he ▸ List.mem_cons_self k2 t)
    have ht : k ∉ t := fun hm => h (List.mem_cons_of_mem _ hm)
    simp only [applyExtras]
    rw [ih _ ht, setdefault_lookup_ne hne]

/-- The canonical prefix of a rendered row ignores the extras segment. -/
theorem renderRow_take (A B : List String) (row : List (String × JVal)) :
    (renderRow (A ++ B) row).take A.length = renderRow A row := by
  unfold renderRow
  rw [List.map_append]
  exact List.take_left' (by simp)

/-- C2: in every output row, the cell of every FieldSchema column is the
value of the normalized record produced by the record normalizer (or the
empty restval cell when that record has no value there) — never the raw
input value: extra keys can only append positions the normalized row
does not already contain. -/
theorem c2_no_overwrite (records : List JVal) (dwc_fields : List String)
    (bmap : List (String × String)) (hdr : List String)
    (rows : List (List String)) (core_rows : List (List (String × JVal)))
    (hx : export_dwc_gbif_csv records dwc_fields bmap = .ok (hdr, rows))
    (hc : normalizeMappings records bmap = .ok core_rows)
    (i : Nat) (hi : i < rows.length) (hic : i < core_rows.length) :
    (rows.getD i []).take dwc_fields.length =
      dwc_fields.map (fun k =>
        match (core_rows.getD i []).lookup k with
        | some v => csvCell v
        | none => "") := by
  simp only [export_dwc_gbif_csv, hc, Except.ok.injEq, Prod.mk.injEq] at hx
  obtain ⟨hh, hr⟩ := hx
  subst hr
  have hiz : i < (core_rows.zip records).length := by
    simpa using hi
  have hir : i < records.length := by
    rw [List.length_zip] at hiz
    omega
  rw [List.getD_eq_getElem _ _ hi, List.getD_eq_getElem _ _ hic]
  rw [List.getElem_map, List.getElem_zip]
  have hrow : ∀ raw : JVal,
      (renderRow (dwc_fields ++ scanExtraKeys records dwc_fields)
        (match raw with
         | .obj o => applyExtras core_rows[i] o (scanExtraKeys records dwc_fields)
         | _ => core_rows[i])).take dwc_fields.length =
      dwc_fields.map (fun k =>
        match core_rows[i].lookup k with
        | some v => csvCell v
        | none => "") := by
    intro raw
    rw [renderRow_take]
    unfold renderRow
    refine List.map_congr_left ?_
    intro k hk
    have hnx : k ∉ scanExtraKeys records dwc_fields :=
      scanExtraKeys_not_mem records dwc_fields hk
    cases raw with
    | obj o => rw [applyExtras_lookup_not_mem _ _ hnx]
    | str s => rfl
    | int n => rfl
    | float q => rfl
    | bool b => rfl
    | null => rfl
    | arr l => rfl
  exact hrow records[i]

/-- Witness for C2 at a one-record input whose raw `occurrenceID` would
collide with a schema column. -/
theorem c2_no_overwrite_witness :
    export_dwc_gbif_csv c2wRecords c2wFields DEFAULT_BASIS_OF_RECORD_MAP =
      .ok (c2wHdr, c2wRows)
  ∧ normalizeMappings c2wRecords DEFAULT_BASIS_OF_RECORD_MAP = .ok c2wCore
  ∧ 0 < c2wRows.length ∧ 0 < c2wCore.length
  ∧ (c2wRows.getD 0 []).take c2wFields.length =
      c2wFields.map (fun k =>
        match (c2wCore.getD 0 []).lookup k with
        | some v => csvCell v
        | none => "") := by
  have hx : export_dwc_gbif_csv c2wRecords c2wFields DEFAULT_BASIS_OF_RECORD_MAP =
      .ok (c2wHdr, c2wRows) := rfl
  have hc : normalizeMappings c2wRecords DEFAULT_BASIS_OF_RECORD_MAP =
      .ok c2wCore := rfl
  exact ⟨hx, hc, by decide, by decide,
    c2_no_overwrite c2wRecords c2wFields DEFAULT_BASIS_OF_RECORD_MAP
      c2wHdr c2wRows c2wCore hx hc 0 (by decide) (by decide)⟩

/-- On success the exporter's header row is exactly the configured
fields followed by the scanned extra keys. -/
theorem export_header (records : List JVal) (dwc_fields : List String)
    (bmap : List (String × String)) (hdr : List String)
    (rows : List (List String))
    (hx : export_dwc_gbif_csv records dwc_fields bmap = .ok (hdr, rows)) :
    hdr = dwc_fields ++ scanExtraKeys records dwc_fields := by
  cases hc : normalizeMappings records bmap with
  | error e => simp [export_dwc_gbif_csv, hc] at hx
  | ok core =>
    simp only [export_dwc_gbif_csv, hc, Except.ok.injEq, Prod.mk.injEq] at hx
    exact hx.1.symm

/-- C10 counterexample: the default schema literal has 46 elements — not
47 — and contains `"datasetID"` only once (its second occurrence was
absorbed into `"referencesdatasetID"` by the implicit string-literal
concatenation), refuting the claim's counts. -/
theorem c10_schema_counts_cex :
    ¬(DEFAULT_DWC_CORE_FIELDS.length = 47 ∧
      DEFAULT_DWC_CORE_FIELDS.count "datasetID" = 2) := by decide

/-- C10 (amended): the built-in default FieldSchema is a 46-element list
that contains `"referencesdatasetID"`, contains `"datasetName"` and
`"license"` twice each (and `"datasetID"` and `"references"` once each);
and every run under the default configuration writes a header that is
exactly this list followed by the detected extra keys — so the header
carries the duplicated columns and the `"referencesdatasetID"` column. -/
theorem c10_schema_amended :
    DEFAULT_DWC_CORE_FIELDS.length = 46
  ∧ "referencesdatasetID" ∈ DEFAULT_DWC_CORE_FIELDS
  ∧ DEFAULT_DWC_CORE_FIELDS.count "datasetName" = 2
  ∧ DEFAULT_DWC_CORE_FIELDS.count "license" = 2
  ∧ DEFAULT_DWC_CORE_FIELDS.count "datasetID" = 1
  ∧ DEFAULT_DWC_CORE_FIELDS.count "references" = 1
  ∧ ∀ (data : JVal) (hdr : List String) (rows : List (List String)),
      dwc_normalise_to_csv (some (some data)) none = .ok (some (hdr, rows)) →
      hdr = DEFAULT_DWC_CORE_FIELDS ++
        scanExtraKeys (find_occurrence_list data) DEFAULT_DWC_CORE_FIELDS := by
  refine ⟨by decide, by decide, by decide, by decide, by decide, by decide, ?_⟩
  intro data hdr rows h
  simp only [dwc_normalise_to_csv] at h
  by_cases he : (find_occurrence_list data).isEmpty = true
  · rw [if_pos he] at h
    simp at h
  · rw [if_neg he] at h
    cases hx : export_dwc_gbif_csv (find_occurrence_list data)
        DEFAULT_DWC_CORE_FIELDS DEFAULT_BASIS_OF_RECORD_MAP with
    | error e => rw [hx] at h; simp at h
    | ok file =>
      rw [hx] at h
      simp only [Except.ok.injEq, Option.some.injEq] at h
      rcases file with ⟨hdr2, rows2⟩
      have := export_header (find_occurrence_list data) DEFAULT_DWC_CORE_FIELDS
        DEFAULT_BASIS_OF_RECORD_MAP hdr2 rows2 hx
      have hh : hdr2 = hdr := congrArg Prod.fst h
      rw [← hh]
      exact this

/-- Witness for the amended C10 at a one-record input under the default
configuration. -/
theorem c10_schema_amended_witness :
    dwc_normalise_to_csv (some (some c10wData)) none =
      .ok (some (c10wHdr, c10wRows))
  ∧ c10wHdr = DEFAULT_DWC_CORE_FIELDS ++
      scanExtraKeys (find_occurrence_list c10wData) DEFAULT_DWC_CORE_FIELDS := by
  have h : dwc_normalise_to_csv (some (some c10wData)) none =
      .ok (some (c10wHdr, c10wRows)) := rfl
  exact ⟨h, c10_schema_amended.2.2.2.2.2.2 c10wData c10wHdr c10wRows h⟩
